import Mathlib

/-
Verification of the fort.15 run-control management module
(polyadcirc/pyADCIRC/fort15_management.py).

Modelling conventions:
- Python floats are modelled as rationals, so float arithmetic is exact
  rational arithmetic here.
- The Python builtin int() truncates toward zero; it is modelled by pyInt.
- A fort.15 document is modelled as a list of structured lines.  Each
  constructor of Line corresponds to one keyword class that the module
  recognizes by substring search on the raw text; the dispatch priority of
  the elif chains in the source is reflected in the choice of constructor.
  The numeric value fields of a line (the text before the comment
  delimiter) and the trailing comment text (after the delimiter) are
  carried explicitly; decimal rendering of numbers on output is abstracted,
  an output line is compared by its parsed content.
- Dictionaries are modelled as association lists where an insert conses a
  new binding in front and a lookup takes the first binding of a key.
- Python exceptions are modelled by an Except monad over PyError.
-/

namespace Fort15

/-- Python int() applied to a float: truncation toward zero. -/
def pyInt (q : ℚ) : ℤ := if 0 ≤ q then ⌊q⌋ else ⌈q⌉

/-- basic.location from the source: an (x, y) station coordinate pair. -/
structure Location where
  x : ℚ
  y : ℚ
deriving DecidableEq

/-- basic.time from the source: global timing parameters (DT, STATIM,
RNDAY, DRAMP). -/
structure Time where
  dt : ℚ
  statim : ℚ
  rnday : ℚ
  dramp : List ℚ
deriving DecidableEq

/-- The filetype table from the source: key to
(has explicit station list, number of record columns). -/
def filetype (key : String) : Option (Bool × ℕ) :=
  if key = "fort61" then some (true, 1)
  else if key = "fort62" then some (true, 2)
  else if key = "fort63" then some (false, 1)
  else if key = "tinun63" then some (false, 1)
  else if key = "maxele63" then some (false, 1)
  else if key = "maxvel63" then some (false, 1)
  else if key = "nodeflag63" then some (false, 1)
  else if key = "rising63" then some (false, 1)
  else if key = "elemaxdry63" then some (false, 1)
  else if key = "fort64" then some (false, 2)
  else if key = "fort71" then some (true, 1)
  else if key = "fort72" then some (true, 2)
  else if key = "fort73" then some (false, 1)
  else if key = "fort74" then some (false, 2)
  else none

/-- Python dict assignment d[k] = v, modelled on association lists. -/
def dictInsert {α : Type} (k : String) (v : α) (m : List (String × α)) :
    List (String × α) :=
  (k, v) :: m

/-- Python dict read d[k], first binding wins. -/
def dictLookup {α : Type} (k : String) : List (String × α) → Option α
  | [] => none
  | (k2, v) :: rest => if k2 = k then some v else dictLookup k rest

/-- One line of a fort.15 document.  Constructors mirror the keyword
classes that the source recognizes by substring search; the raw text of an
unrecognized line is kept verbatim in the other constructor. -/
inductive Line
  /-- line containing DT: one float value, then a comment -/
  | dt (v : ℚ) (c : String)
  /-- line containing IHOT: one int value, then a comment -/
  | ihot (v : ℤ) (c : String)
  /-- line containing STATIM -/
  | statim (v : ℚ) (c : String)
  /-- line containing RNDAY -/
  | rnday (v : ℚ) (c : String)
  /-- line containing DRAMP: a list of floats -/
  | dramp (vs : List ℚ) (c : String)
  /-- line containing H0: whitespace separated tokens before the comment
  delimiter, some v for a token that parses as a float, none otherwise -/
  | h0 (toks : List (Option ℚ)) (c : String)
  /-- line containing NBFR: the forcing frequency count -/
  | nbfr (v : ℤ) (c : String)
  /-- line containing NFFR: the flow boundary forcing frequency count -/
  | nffr (v : ℤ) (c : String)
  /-- line containing the ANGINN marker, kept as raw text -/
  | anginn (raw : String)
  /-- elevation station output header (matched via the UNIT  61 text by the
  scanner and via the NOUTE text by the rewriter): four floats
  NOUTE TOUTSE TOUTFE NSPOOLE -/
  | noute (nout touts toutf nspool : ℚ) (c : String)
  /-- velocity station output header (UNIT  62 and UNIT 62) -/
  | unit62 (nout touts toutf nspool : ℚ) (c : String)
  /-- concentration station output header line containing NOUTC -/
  | noutc (c : String)
  /-- global elevation output header, line containing NOUTGE -/
  | noutge (nout touts toutf nspool : ℚ) (c : String)
  /-- global velocity output header, line containing UNIT  64 -/
  | unit64 (nout touts toutf nspool : ℚ) (c : String)
  /-- global concentration output header, line containing NOUTGC -/
  | noutgc (c : String)
  /-- met station output header, line containing UNIT  71/72 or
  UNIT 71/72 -/
  | unit7172 (nout touts toutf nspool : ℚ) (c : String)
  /-- global met output header, line containing UNIT  73/74 -/
  | unit7374 (nout touts toutf nspool : ℚ) (c : String)
  /-- a station count line inside a record block: the integer count before
  the comment delimiter and the descriptive comment text after it -/
  | stationCount (n : ℕ) (descr : String)
  /-- a station coordinate line inside a record block: the first and the
  last numeric token that the regular expression extracts -/
  | coords (x y : ℚ)
  /-- line containing NHSTAR: hot start write parameters -/
  | nhstar (n1 n2 : ℤ) (c : String)
  /-- any line matching no recognized keyword, raw text -/
  | other (raw : String)
deriving DecidableEq

/-- Python exceptions and the two typed errors named by the specification
(missingTimeError and formatError are never raised by the code, they exist
so that statements about the specified error taxonomy can be written).
nonTermination marks a loop of the source that would read past end of
input forever; it also serves as the out-of-fuel marker. -/
inductive PyError
  | attributeError
  | nameError
  | valueError
  | indexError
  | keyError
  | nonTermination
  | missingTimeError
  | formatError
deriving DecidableEq

/-- array_to_loc_list from the source: each table row i gives
location(i[0], i[1]).  The claimed inputs are n by 2 tables, a row is a
pair. -/
def array_to_loc_list (station_array : List (ℚ × ℚ)) : List Location :=
  station_array.map (fun i => ⟨i.1, i.2⟩)

/-- loc_list_to_array from the source: xy = [[l.x, l.y] for l in list]. -/
def loc_list_to_array (station_list : List Location) : List (ℚ × ℚ) :=
  station_list.map (fun l => (l.x, l.y))

/-- The circle description file shape.c14: center (xb, yb) on line one,
radius r on line two. -/
structure CircleDesc where
  xb : ℚ
  yb : ℚ
  r : ℚ
deriving DecidableEq

/-- trim_locations_circle from the source, with the geometry description
file contents passed as a value: keep loc when
(xb-loc.x)^2 + (yb-loc.y)^2 <= (r - r/25)^2, preserving input order. -/
def trim_locations_circle (c : CircleDesc) (locs : List Location) :
    List Location :=
  locs.filter (fun loc =>
    decide (((c.xb - loc.x) ^ 2 + (c.yb - loc.y) ^ 2) ≤ (c.r - c.r / 25) ^ 2))

/-- Lines 176-184 of _read_record in the source: clamp the output window
to the simulation window and compute the observation count.  The source
text is
touts = max(touts, data.time.statim),
toutf = min(toutf, data.time.rnday + data.time.statim),
total_obs = int((toutf - touts) * 24 * 60 * 60 / data.time.dt / nspool)
when nout != 0 and nspool != 0, else 0. -/
def total_obs (t : Time) (nout touts toutf nspool : ℚ) : ℤ :=
  let touts2 := max touts t.statim
  let toutf2 := min toutf (t.rnday + t.statim)
  if nout ≠ 0 ∧ nspool ≠ 0 then
    pyInt ((toutf2 - touts2) * 24 * 60 * 60 / t.dt / nspool)
  else 0

/-- The station reading loop of _read_record: read n coordinate lines.  A
line that is not a coordinate line yields no regular expression match and
the subscript of the empty match list raises an index error in Python. -/
def readCoords : ℕ → List Line → Except PyError (List Location × List Line)
  | 0, rest => .ok ([], rest)
  | n + 1, Line.coords x y :: rest =>
    match readCoords n rest with
    | .ok (locs, rest2) => .ok (⟨x, y⟩ :: locs, rest2)
    | .error e => .error e
  | _ + 1, _ => .error .indexError

/-- The mutable record state threaded through a scan or a rewrite: the
time attribute (unset before the DRAMP line; Python raises an attribute
error when it is read unset) and the stations and recording dicts. -/
structure FData where
  time : Option Time
  stations : List (String × List Location)
  recording : List (String × (ℕ × ℤ × ℕ))
deriving DecidableEq

/-- _read_record from the source.  node_num models data.node_num, which
the fdata object of the rewriter does not have (none there).  On success
it returns the descriptive comment of the count line, the updated record
state, and the unconsumed input lines. -/
def read_record (key : String) (nout touts toutf nspool : ℚ)
    (node_num : Option ℕ) (d : FData) (rest : List Line) :
    Except PyError (Option String × FData × List Line) :=
  match d.time with
  | none => .error .attributeError
  | some t =>
    let tot := total_obs t nout touts toutf nspool
    match filetype key with
    | none => .error .keyError
    | some (explicit, irtype) =>
      if explicit then
        match rest with
        | Line.stationCount n descr :: rest2 =>
          match readCoords n rest2 with
          | .error e => .error e
          | .ok (stations, rest3) =>
            .ok (some descr,
              { d with
                stations := dictInsert key stations d.stations,
                recording := dictInsert key (n, tot, irtype) d.recording },
              rest3)
        | _ => .error .valueError
      else
        match node_num with
        | none => .error .attributeError
        | some nn =>
          .ok (none,
            { d with recording := dictInsert key (nn, tot, irtype) d.recording },
            rest)

/-- _read_record7 from the source: one decode stored under two keys.  The
station list is read once and stored under both keys; each recording entry
takes the column count of its own filetype entry. -/
def read_record7 (key1 key2 : String) (nout touts toutf nspool : ℚ)
    (node_num : Option ℕ) (d : FData) (rest : List Line) :
    Except PyError (Option String × FData × List Line) :=
  match d.time with
  | none => .error .attributeError
  | some t =>
    let tot := total_obs t nout touts toutf nspool
    match filetype key1 with
    | none => .error .keyError
    | some (explicit, irtype1) =>
      if explicit then
        match rest with
        | Line.stationCount n descr :: rest2 =>
          match readCoords n rest2 with
          | .error e => .error e
          | .ok (stations, rest3) =>
            match filetype key2 with
            | none => .error .keyError
            | some (_, irtype2) =>
              .ok (some descr,
                { d with
                  stations := dictInsert key2 stations
                    (dictInsert key1 stations d.stations),
                  recording := dictInsert key2 (n, tot, irtype2)
                    (dictInsert key1 (n, tot, irtype1) d.recording) },
                rest3)
        | _ => .error .valueError
      else
        match node_num with
        | none => .error .attributeError
        | some nn =>
          match filetype key2 with
          | none => .error .keyError
          | some (_, irtype2) =>
            .ok (none,
              { d with
                recording := dictInsert key2 (nn, tot, irtype2)
                  (dictInsert key1 (nn, tot, irtype1) d.recording) },
              rest)

/-- np.fromstring with a separator: parse tokens left to right, stopping
at the first token that does not parse as a float. -/
def parsedTokens (toks : List (Option ℚ)) : List ℚ :=
  (toks.takeWhile Option.isSome).filterMap id

/-- The local variables and the data attributes accumulated by
read_recording_data: dt, statim, rnday are function locals (a name error
if read before assignment), ihot and h0 are attributes stored on data. -/
structure ScanState where
  dtv : Option ℚ
  statimv : Option ℚ
  rndayv : Option ℚ
  ihotv : Option ℤ
  h0v : Option ℚ
  data : FData
deriving DecidableEq

/-- The while loop of read_recording_data.  The fuel argument bounds the
number of loop iterations; each iteration consumes at least one input
line, so fuel equal to the document length always suffices, and running
out of fuel is reported with the nonTermination marker.  The H0 branch
models the double np.fromstring of the source: the first parse takes the
numeric tokens before the comment delimiter, the subscript of an empty
parse raises an index error, and the second binary np.fromstring round
trips the first value unchanged. -/
def scanLines (node_num : Option ℕ) :
    ℕ → List Line → ScanState → Except PyError ScanState
  | _, [], st => .ok st
  | 0, _ :: _, _ => .error .nonTermination
  | fuel + 1, l :: rest, st =>
    match l with
    | Line.dt v _ => scanLines node_num fuel rest { st with dtv := some v }
    | Line.ihot v _ => scanLines node_num fuel rest { st with ihotv := some v }
    | Line.statim v _ =>
      scanLines node_num fuel rest { st with statimv := some v }
    | Line.rnday v _ =>
      scanLines node_num fuel rest { st with rndayv := some v }
    | Line.dramp vs _ =>
      match st.dtv, st.statimv, st.rndayv with
      | some dtq, some stq, some rnq =>
        scanLines node_num fuel rest
          { st with data := { st.data with time := some ⟨dtq, stq, rnq, vs⟩ } }
      | _, _, _ => .error .nameError
    | Line.h0 toks _ =>
      match parsedTokens toks with
      | [] => .error .indexError
      | v :: _ => scanLines node_num fuel rest { st with h0v := some v }
    | Line.noute a b c d _ =>
      match read_record "fort61" a b c d node_num st.data rest with
      | .error e => .error e
      | .ok (_, d2, rest2) =>
        scanLines node_num fuel rest2 { st with data := d2 }
    | Line.unit62 a b c d _ =>
      match read_record "fort62" a b c d node_num st.data rest with
      | .error e => .error e
      | .ok (_, d2, rest2) =>
        scanLines node_num fuel rest2 { st with data := d2 }
    | Line.noutc _ => scanLines node_num fuel rest st
    | Line.unit7172 a b c d _ =>
      match read_record7 "fort71" "fort72" a b c d node_num st.data rest with
      | .error e => .error e
      | .ok (_, d2, rest2) =>
        scanLines node_num fuel rest2 { st with data := d2 }
    | Line.noutge a b c d _ =>
      match read_record "fort63" a b c d node_num st.data rest with
      | .error e => .error e
      | .ok (_, d2, rest2) =>
        scanLines node_num fuel rest2 { st with data := d2 }
    | Line.unit64 a b c d _ =>
      match read_record "fort64" a b c d node_num st.data rest with
      | .error e => .error e
      | .ok (_, d2, rest2) =>
        scanLines node_num fuel rest2 { st with data := d2 }
    | Line.noutgc _ => scanLines node_num fuel rest st
    | Line.unit7374 a b c d _ =>
      match read_record7 "fort73" "fort74" a b c d node_num st.data rest with
      | .error e => .error e
      | .ok (_, d2, rest2) =>
        scanLines node_num fuel rest2 { st with data := d2 }
    | _ => scanLines node_num fuel rest st

/-- The scan state at entry of read_recording_data: empty dicts, no time
attribute, no locals assigned. -/
def initScan : ScanState := ⟨none, none, none, none, none, ⟨none, [], []⟩⟩

/-- read_recording_data from the source: scan the whole document, then
return data.time (an attribute error when no DRAMP line was seen). -/
def read_recording_data (node_num : Option ℕ) (doc : List Line) :
    Except PyError (Time × FData) :=
  match scanLines node_num doc.length doc initScan with
  | .error e => .error e
  | .ok st =>
    match st.data.time with
    | none => .error .attributeError
    | some t => .ok (t, st.data)

/-- _write_record from the source: emit a station count line carrying the
length of the stored station list and the descriptive comment, then one
coordinate line per stored station.  Reading a key that was never stored
raises a key error; Python renders a None description as the text None. -/
def write_record (key : String) (descr : Option String) (d : FData) :
    Except PyError (List Line) :=
  match dictLookup key d.stations with
  | none => .error .keyError
  | some stations =>
    .ok (Line.stationCount stations.length (descr.getD "None")
      :: stations.map (fun loc => Line.coords loc.x loc.y))

/-- The local variables of the subdomain rewrite loop together with its
fdata storage object (which has no node_num attribute). -/
structure SubState where
  dtv : Option ℚ
  statimv : Option ℚ
  rndayv : Option ℚ
  data : FData
deriving DecidableEq

/-- The skip loop of the NBFR branch: discard input lines until the first
line containing the ANGINN marker.  Python loops forever when the marker
is absent (readline returns the empty string at end of file forever). -/
def skipToAnginn : List Line → Option (Line × List Line)
  | [] => none
  | Line.anginn raw :: rest => some (Line.anginn raw, rest)
  | _ :: rest => skipToAnginn rest

/-- The skip loop of the NFFR branch: discard input lines until the first
line containing the NOUTE marker, returning its four numeric fields, its
comment and the remaining input. -/
def skipToNoute : List Line → Option ((ℚ × ℚ × ℚ × ℚ) × String × List Line)
  | [] => none
  | Line.noute a b c d cm :: rest => some ((a, b, c, d), cm, rest)
  | _ :: rest => skipToNoute rest

/-- Prepend already written output lines to the outcome of the remaining
rewrite. -/
def emit (ls : List Line) :
    Except PyError (List Line × SubState) →
    Except PyError (List Line × SubState)
  | .ok (out, st) => .ok (ls ++ out, st)
  | .error e => .error e

/-- The while loop of subdomain from the source, producing the list of
output lines.  Fuel bounds loop iterations exactly as in scanLines.  On an
exception the partially written output is discarded by the Except model;
no claim concerns output written before an exception. -/
def subdomainLoop (node_num : Option ℕ) :
    ℕ → List Line → SubState → Except PyError (List Line × SubState)
  | _, [], st => .ok ([], st)
  | 0, _ :: _, _ => .error .nonTermination
  | fuel + 1, l :: rest, st =>
    match l with
    | Line.dt v c =>
      emit [Line.dt v c] (subdomainLoop node_num fuel rest { st with dtv := some v })
    | Line.statim v c =>
      emit [Line.statim v c]
        (subdomainLoop node_num fuel rest { st with statimv := some v })
    | Line.rnday v c =>
      emit [Line.rnday (v * 0.995) c]
        (subdomainLoop node_num fuel rest { st with rndayv := some (v * 0.995) })
    | Line.dramp vs c =>
      match st.dtv, st.statimv, st.rndayv with
      | some dtq, some stq, some rnq =>
        emit [Line.dramp vs c]
          (subdomainLoop node_num fuel rest
            { st with data := { st.data with time := some ⟨dtq, stq, rnq, vs⟩ } })
      | _, _, _ => .error .nameError
    | Line.nbfr _ c =>
      match skipToAnginn rest with
      | none => .error .nonTermination
      | some (a, rest2) =>
        emit [Line.nbfr 0 c, a] (subdomainLoop node_num fuel rest2 st)
    | Line.nffr _ _ =>
      match skipToNoute rest with
      | none => .error .nonTermination
      | some ((a, b, c, d), cm, rest2) =>
        match read_record "fort61" a b c d node_num st.data rest2 with
        | .error e => .error e
        | .ok (descr, d2, rest3) =>
          match write_record "fort61" descr d2 with
          | .error e => .error e
          | .ok outLines =>
            emit (Line.noute a b c d cm :: outLines)
              (subdomainLoop node_num fuel rest3 { st with data := d2 })
    | Line.unit62 a b c d cm =>
      match read_record "fort62" a b c d node_num st.data rest with
      | .error e => .error e
      | .ok (descr, d2, rest2) =>
        match write_record "fort62" descr d2 with
        | .error e => .error e
        | .ok outLines =>
          emit (Line.unit62 a b c d cm :: outLines)
            (subdomainLoop node_num fuel rest2 { st with data := d2 })
    | Line.noutc c =>
      emit [Line.noutc c] (subdomainLoop node_num fuel rest st)
    | Line.unit7172 a b c d cm =>
      match read_record7 "fort71" "fort72" a b c d node_num st.data rest with
      | .error e => .error e
      | .ok (descr, d2, rest2) =>
        match write_record "fort71" descr d2 with
        | .error e => .error e
        | .ok outLines =>
          emit (Line.unit7172 a b c d cm :: outLines)
            (subdomainLoop node_num fuel rest2 { st with data := d2 })
    | l2 => emit [l2] (subdomainLoop node_num fuel rest st)

/-- The rewrite state at entry of subdomain: a fresh fdata object. -/
def initSub : SubState := ⟨none, none, none, ⟨none, [], []⟩⟩

/-- subdomain from the source: rewrite a full domain document into a
subdomain document.  The fdata storage object has no node_num attribute,
hence none is passed for it. -/
def subdomain (doc : List Line) : Except PyError (List Line × SubState) :=
  subdomainLoop none doc.length doc initSub

/-- The line transform of set_ihot: a line containing IHOT gets its value
replaced keeping its comment; every other line is written unchanged. -/
def set_ihot_line (ihotv : ℤ) : Line → Line
  | Line.ihot _ c => Line.ihot ihotv c
  | l => l

/-- set_ihot from the source, document level. -/
def set_ihot (ihotv : ℤ) (doc : List Line) : List Line :=
  doc.map (set_ihot_line ihotv)

/-- The line transform of set_write_hot: a line containing NHSTAR gets its
two values replaced keeping its comment; every other line is unchanged. -/
def set_write_hot_line (nhstar nhsinc : ℤ) : Line → Line
  | Line.nhstar _ _ c => Line.nhstar nhstar nhsinc c
  | l => l

/-- set_write_hot from the source, document level. -/
def set_write_hot (nhstar nhsinc : ℤ) (doc : List Line) : List Line :=
  doc.map (set_write_hot_line nhstar nhsinc)

/-- A snapshot of the two files a mutator touches: fort.15 and temp.15
(none when temp.15 does not exist). -/
structure FS where
  fort15 : List Line
  temp15 : Option (List Line)
deriving DecidableEq

/-- The sequence of file system states produced by the mutator pattern of
the source: open temp.15 truncated, append output lines one at a time
while fort.15 stays untouched, then os.rename temp.15 onto fort.15, which
replaces the whole content in one step. -/
def writeTrace (old new : List Line) : List FS :=
  (List.range (new.length + 1)).map (fun k => ⟨old, some (new.take k)⟩)
    ++ [⟨new, none⟩]

/-- The file system trace of set_ihot. -/
def set_ihot_trace (ihotv : ℤ) (old : List Line) : List FS :=
  writeTrace old (set_ihot ihotv old)

/-- The file system trace of set_write_hot. -/
def set_write_hot_trace (nhstar nhsinc : ℤ) (old : List Line) : List FS :=
  writeTrace old (set_write_hot nhstar nhsinc old)

/-- The keyword classes intercepted by the subdomain rewrite loop (the
elif branches of its dispatch); every other line falls to the verbatim
copy branch. -/
def interceptedSub : Line → Bool
  | Line.dt _ _ => true
  | Line.statim _ _ => true
  | Line.rnday _ _ => true
  | Line.dramp _ _ => true
  | Line.nbfr _ _ => true
  | Line.nffr _ _ => true
  | Line.unit62 _ _ _ _ _ => true
  | Line.noutc _ => true
  | Line.unit7172 _ _ _ _ _ => true
  | _ => false

/-- Test for a line containing the ANGINN marker. -/
def isAnginn : Line → Bool
  | Line.anginn _ => true
  | _ => false

/-- Test for a line containing IHOT. -/
def isIhot : Line → Bool
  | Line.ihot _ _ => true
  | _ => false

/-- Test for a line containing NHSTAR. -/
def isNhstar : Line → Bool
  | Line.nhstar _ _ _ => true
  | _ => false

/-- Test for the record block headers recognized by the scanner. -/
def isRecordHeader : Line → Bool
  | Line.noute _ _ _ _ _ => true
  | Line.unit62 _ _ _ _ _ => true
  | Line.unit7172 _ _ _ _ _ => true
  | Line.noutge _ _ _ _ _ => true
  | Line.unit64 _ _ _ _ _ => true
  | Line.unit7374 _ _ _ _ _ => true
  | _ => false

/-- The observation count formula as the specification words it:
effectiveStart = max(startWindow, startTime),
effectiveEnd = min(endWindow, startTime + totalDays),
floor toward zero of (effectiveEnd - effectiveStart) * 86400 / timeStep /
strideSteps when outputFlag and strideSteps are nonzero, else zero.  This
definition follows the specification text and is compared with total_obs,
which is translated from the source. -/
def totalObservationsSpec (t : Time)
    (outputFlag startWindow endWindow strideSteps : ℚ) : ℤ :=
  let effectiveStart := max startWindow t.statim
  let effectiveEnd := min endWindow (t.statim + t.rnday)
  if outputFlag ≠ 0 ∧ strideSteps ≠ 0 then
    pyInt ((effectiveEnd - effectiveStart) * 86400 / t.dt / strideSteps)
  else 0

/-- A document whose first line is an elevation record block header, so
the scan reaches a record block before any DRAMP line. -/
def c9doc : List Line := [Line.noute 5 0 10 6 "c"]

/-- The station list of the C1 test document: one station inside and one
station outside the C1 test circle. -/
def c1stations : List Location := [⟨3, 0⟩, ⟨20, 0⟩]

/-- A circle subdomain of radius 10 around the origin; its shrunk filter
radius is 10 - 10/25 = 9.6, so station (3, 0) passes the containment
predicate and station (20, 0) fails it. -/
def c1circle : CircleDesc := ⟨0, 0, 10⟩

/-- A full domain document whose velocity station block holds the two
c1stations.  Rewriting it exercises the station block path of
subdomain. -/
def c1doc : List Line :=
  [Line.dt (1/2) "DT", Line.statim 0 "STATIM", Line.rnday 10 "RNDAY",
   Line.dramp [0] "DRAMP", Line.unit62 1 0 10 100 "UNIT 62",
   Line.stationCount 2 "NSTAV", Line.coords 3 0, Line.coords 20 0]

/-- The record state of the C10 witness: time parameters established,
empty dicts. -/
def c10data : FData := ⟨some ⟨1, 0, 5, []⟩, [], []⟩

/-- The input lines of the C10 witness: a one station block. -/
def c10rest : List Line := [Line.stationCount 1 "d", Line.coords 1 2]

/-- The observation count of the C10 witness block. -/
def c10tot : ℤ := total_obs ⟨1, 0, 5, []⟩ 1 0 5 10

/-- The record state read_record7 produces from c10data and c10rest under
the fort71 and fort72 keys. -/
def c10out : FData :=
  ⟨some ⟨1, 0, 5, []⟩,
   [("fort72", [⟨1, 2⟩]), ("fort71", [⟨1, 2⟩])],
   [("fort72", (1, c10tot, 2)), ("fort71", (1, c10tot, 1))]⟩

end Fort15

namespace Fort15

/-- Every state of a mutator write trace shows either the old document or
the fully rewritten document under the fort.15 name. -/
theorem writeTrace_fort15 (old new : List Line) :
    ∀ s ∈ writeTrace old new, s.fort15 = old ∨ s.fort15 = new := by
  intro s hs
  simp only [writeTrace, List.mem_append, List.mem_map, List.mem_range,
    List.mem_singleton] at hs
  rcases hs with ⟨k, _, rfl⟩ | rfl
  · left; rfl
  · right; rfl

/-- The final state of a mutator write trace holds the rewritten document
under the fort.15 name and no temp file. -/
theorem writeTrace_last (old new : List Line) :
    (writeTrace old new).getLast? = some ⟨new, none⟩ := by
  have h := List.getLast?_append_cons
    ((List.range (new.length + 1)).map
      (fun k => (⟨old, some (new.take k)⟩ : FS)))
    (⟨new, none⟩ : FS) []
  rw [writeTrace, h]
  rfl

/-- The skip loop of the NBFR branch lands on the first line containing
the ANGINN marker. -/
theorem skipToAnginn_append : ∀ (mid : List Line) (raw : String)
    (post : List Line), (∀ l ∈ mid, isAnginn l = false) →
    skipToAnginn (mid ++ Line.anginn raw :: post)
      = some (Line.anginn raw, post) := by
  intro mid
  induction mid with
  | nil => intro raw post _; rfl
  | cons hd tl ih =>
    intro raw post h
    have hhd : isAnginn hd = false := h hd (List.mem_cons_self hd tl)
    have htl : ∀ l ∈ tl, isAnginn l = false :=
      fun l hl => h l (List.mem_cons_of_mem hd hl)
    cases hd <;> simp [isAnginn] at hhd <;>
      simpa [skipToAnginn] using ih raw post htl

/-- Claim C7: loc_list_to_array and array_to_loc_list are mutual
inverses: converting a station list to a coordinate table and back yields
the original list, and converting an n by 2 coordinate table to stations
and back yields the original table. -/
theorem claim_C7 :
    (∀ stations : List Location,
      array_to_loc_list (loc_list_to_array stations) = stations) ∧
    (∀ table : List (ℚ × ℚ),
      loc_list_to_array (array_to_loc_list table) = table) := by
  constructor
  · intro stations
    induction stations with
    | nil => rfl
    | cons a t ih =>
      show (⟨a.x, a.y⟩ : Location) :: array_to_loc_list (loc_list_to_array t)
        = a :: t
      rw [ih]
  · intro table
    induction table with
    | nil => rfl
    | cons a t ih =>
      show ((a.1, a.2) : ℚ × ℚ) :: loc_list_to_array (array_to_loc_list t)
        = a :: t
      rw [ih]

/-- Claim C2: the stored observation count of a record block equals the
specification formula: floor toward zero of (effectiveEnd -
effectiveStart) * 86400 / timeStep / strideSteps when the output flag and
the stride are nonzero, and zero when the output flag or the stride is
zero. -/
theorem claim_C2 : ∀ (t : Time) (nout touts toutf nspool : ℚ),
    total_obs t nout touts toutf nspool
      = totalObservationsSpec t nout touts toutf nspool ∧
    ((nout = 0 ∨ nspool = 0) → total_obs t nout touts toutf nspool = 0) := by
  intro t nout touts toutf nspool
  constructor
  · simp only [total_obs, totalObservationsSpec]
    rw [add_comm t.rnday t.statim]
    split_ifs with h
    · congr 1
      ring
    · rfl
  · intro h
    simp only [total_obs]
    rcases h with h | h <;> simp [h]

/-- Witness for claim C2 with the stride-zero hypothesis discharged at a
concrete input. -/
theorem claim_C2_witness : total_obs ⟨2, 0, 5, []⟩ 0 1 2 3 = 0 :=
  (claim_C2 ⟨2, 0, 5, []⟩ 0 1 2 3).2 (Or.inl rfl)

/-- Claim C8: on a line containing H0 whose first token before the
comment delimiter parses as a number, the scanner stores that first value
as the minimum depth and continues, whatever the remaining tokens of the
line are. -/
theorem claim_C8 : ∀ (node_num : Option ℕ) (fuel : ℕ) (v : ℚ)
    (toks : List (Option ℚ)) (cm : String) (rest : List Line)
    (st : ScanState),
    scanLines node_num (fuel + 1) (Line.h0 (some v :: toks) cm :: rest) st
      = scanLines node_num fuel rest { st with h0v := some v } := by
  intro node_num fuel v toks cm rest st
  rfl

/-- Claim C9, amended: when the scan reaches a recognized record block
header while the time parameters are not yet established, it fails, but
with the untyped attribute access error of the host runtime (data.time is
unset), not with a dedicated missing-prerequisite error, which the code
never defines. -/
theorem claim_C9 : ∀ (node_num : Option ℕ) (fuel : ℕ) (l : Line)
    (rest : List Line) (st : ScanState),
    st.data.time = none → isRecordHeader l = true →
    scanLines node_num (fuel + 1) (l :: rest) st = .error .attributeError := by
  intro nn fuel l rest st ht hl
  cases l <;> simp [isRecordHeader] at hl <;>
    simp [scanLines, read_record, read_record7, ht]

/-- Witness for claim C9 at a concrete document. -/
theorem claim_C9_witness :
    scanLines (some 4) 1 [Line.noute 5 0 10 6 "c"] initScan
      = .error .attributeError :=
  claim_C9 (some 4) 0 (Line.noute 5 0 10 6 "c") [] initScan rfl rfl

/-- Counterexample to claim C9 as stated: scanning a document whose
record block precedes the DRAMP line fails with the attribute error, not
with the typed missing-prerequisite error the claim names. -/
theorem claim_C9_counterexample :
    read_recording_data (some 4) c9doc = .error .attributeError ∧
    read_recording_data (some 4) c9doc ≠ .error .missingTimeError := by
  have h1 : read_recording_data (some 4) c9doc = .error .attributeError := rfl
  refine ⟨h1, fun h => ?_⟩
  rw [h1] at h
  exact PyError.noConfusion (Except.error.inj h)

/-- Claim C3: the circle trim keeps, in input order, exactly the
locations whose squared distance from the center is at most
(r - r/25)^2; a location at squared distance exactly (r - r/25)^2 is
kept and a location at squared distance exactly r^2 is dropped when
r is positive. -/
theorem claim_C3 : ∀ (c : CircleDesc) (locs : List Location), 0 < c.r →
    List.Sublist (trim_locations_circle c locs) locs ∧
    (∀ loc : Location, loc ∈ trim_locations_circle c locs ↔
      loc ∈ locs ∧
        (c.xb - loc.x) ^ 2 + (c.yb - loc.y) ^ 2 ≤ (c.r - c.r / 25) ^ 2) ∧
    (∀ loc ∈ locs,
      (c.xb - loc.x) ^ 2 + (c.yb - loc.y) ^ 2 = (c.r - c.r / 25) ^ 2 →
      loc ∈ trim_locations_circle c locs) ∧
    (∀ loc : Location,
      (c.xb - loc.x) ^ 2 + (c.yb - loc.y) ^ 2 = c.r ^ 2 →
      loc ∉ trim_locations_circle c locs) := by
  intro c locs hr
  refine ⟨List.filter_sublist _, ?_, ?_, ?_⟩
  · intro loc
    simp [trim_locations_circle, List.mem_filter]
  · intro loc hmem heq
    simp only [trim_locations_circle, List.mem_filter, decide_eq_true_eq]
    exact ⟨hmem, le_of_eq heq⟩
  · intro loc heq hmem
    simp only [trim_locations_circle, List.mem_filter, decide_eq_true_eq]
      at hmem
    have h2 := hmem.2
    rw [heq] at h2
    nlinarith [mul_pos hr hr, h2]

/-- Witness for claim C3: radius 25 circle at the origin, station (24, 0)
sits exactly at the shrunk radius and is kept, station (25, 0) sits
exactly at the radius and is dropped. -/
theorem claim_C3_witness :
    (⟨24, 0⟩ : Location) ∈ trim_locations_circle ⟨0, 0, 25⟩ [⟨24, 0⟩, ⟨25, 0⟩] ∧
    (⟨25, 0⟩ : Location) ∉ trim_locations_circle ⟨0, 0, 25⟩ [⟨24, 0⟩, ⟨25, 0⟩] := by
  have h := claim_C3 ⟨0, 0, 25⟩ [⟨24, 0⟩, ⟨25, 0⟩] (by norm_num)
  exact ⟨h.2.2.1 ⟨24, 0⟩ (by decide) (by norm_num),
    h.2.2.2 ⟨25, 0⟩ (by norm_num)⟩

/-- Claim C10: a successful paired-channel decode of an explicit-station
block stores the same station sequence under the primary and the
secondary key, its two recording entries carry the same station count and
the same observation count, and each entry carries the column count of
its own registry entry. -/
theorem claim_C10 : ∀ (key1 key2 : String) (a b c d : ℚ) (nn : Option ℕ)
    (dat : FData) (rest : List Line) (descr : Option String) (d2 : FData)
    (rest2 : List Line) (c1 : ℕ) (e2 : Bool) (c2 : ℕ),
    filetype key1 = some (true, c1) →
    filetype key2 = some (e2, c2) →
    key1 ≠ key2 →
    read_record7 key1 key2 a b c d nn dat rest = .ok (descr, d2, rest2) →
    ∃ (stations : List Location) (n : ℕ) (tot : ℤ),
      dictLookup key1 d2.stations = some stations ∧
      dictLookup key2 d2.stations = some stations ∧
      dictLookup key1 d2.recording = some (n, tot, c1) ∧
      dictLookup key2 d2.recording = some (n, tot, c2) := by
  intro key1 key2 a b c d nn dat rest descr d2 rest2 c1 e2 c2 hk1 hk2 hne hok
  have hne2 : key2 ≠ key1 := Ne.symm hne
  cases htime : dat.time with
  | none => simp [read_record7, htime] at hok
  | some t =>
    cases rest with
    | nil => simp [read_record7, hk1, htime] at hok
    | cons hd tl =>
      cases hd <;> simp [read_record7, hk1, hk2, htime] at hok
      case stationCount n descr3 =>
        cases hco : readCoords n tl with
        | error e => rw [hco] at hok; simp at hok
        | ok p =>
          obtain ⟨stations, rest4⟩ := p
          rw [hco] at hok
          simp only [Except.ok.injEq, Prod.mk.injEq] at hok
          obtain ⟨-, hdat, -⟩ := hok
          refine ⟨stations, n, total_obs t a b c d, ?_, ?_, ?_, ?_⟩ <;>
            rw [← hdat] <;>
            simp [dictInsert, dictLookup, hne, hne2]

/-- Witness for claim C10 at a concrete one-station block under the
fort71 and fort72 keys. -/
theorem claim_C10_witness :
    ∃ (stations : List Location) (n : ℕ) (tot : ℤ),
      dictLookup "fort71" c10out.stations = some stations ∧
      dictLookup "fort72" c10out.stations = some stations ∧
      dictLookup "fort71" c10out.recording = some (n, tot, 1) ∧
      dictLookup "fort72" c10out.recording = some (n, tot, 2) :=
  claim_C10 "fort71" "fort72" 1 0 5 10 none c10data c10rest (some "d")
    c10out [] 1 true 2 rfl rfl (by decide) rfl

/-- Claim C1, checked at a failing input: the subdomain rewrite emits the
station block of the velocity channel with the full input station list
and the unfiltered station count, although one of the stations lies
outside the subdomain circle, while the geometry containment filter would
keep only the inside station.  The rewrite loop never invokes any trim
function, contradicting the claim and the source docstring of
subdomain. -/
theorem claim_C1 :
    (subdomain c1doc).map Prod.fst = Except.ok
      [Line.dt (1/2) "DT", Line.statim 0 "STATIM",
       Line.rnday (199/20) "RNDAY", Line.dramp [0] "DRAMP",
       Line.unit62 1 0 10 100 "UNIT 62", Line.stationCount 2 "NSTAV",
       Line.coords 3 0, Line.coords 20 0] ∧
    trim_locations_circle c1circle c1stations = [⟨3, 0⟩] := by
  constructor
  · have h62 : filetype "fort62" = some (true, 2) := rfl
    norm_num [subdomain, c1doc, subdomainLoop, emit, read_record,
      write_record, readCoords, h62, dictInsert, dictLookup, initSub,
      Except.map]
  · norm_num [trim_locations_circle, c1circle, c1stations, List.filter]

/-- Claim C4: the subdomain rewrite turns an RNDAY line carrying value v
into an RNDAY line carrying v * 0.995 with the original trailing comment,
and copies every line matching no intercepted keyword to the output
unchanged. -/
theorem claim_C4 : ∀ (node_num : Option ℕ) (fuel : ℕ) (rest : List Line)
    (st : SubState) (v : ℚ) (c : String),
    (subdomainLoop node_num (fuel + 1) (Line.rnday v c :: rest) st
      = emit [Line.rnday (v * 0.995) c]
          (subdomainLoop node_num fuel rest
            { st with rndayv := some (v * 0.995) })) ∧
    (∀ l : Line, interceptedSub l = false →
      subdomainLoop node_num (fuel + 1) (l :: rest) st
        = emit [l] (subdomainLoop node_num fuel rest st)) := by
  intro nn fuel rest st v c
  constructor
  · rfl
  · intro l hl
    cases l <;> simp [interceptedSub] at hl <;> rfl

/-- Witness for claim C4: RNDAY 10 becomes RNDAY 9.95 and an
unrecognized line passes through unchanged. -/
theorem claim_C4_witness :
    subdomainLoop none 1 [Line.rnday 10 "c"] initSub
      = .ok ([Line.rnday (199/20) "c"],
          ⟨none, none, some (199/20), ⟨none, [], []⟩⟩) ∧
    subdomainLoop none 1 [Line.other "x"] initSub
      = .ok ([Line.other "x"], initSub) :=
  ⟨((claim_C4 none 0 [] initSub 10 "c").1).trans
     (by norm_num [emit, subdomainLoop, initSub]),
   ((claim_C4 none 0 [] initSub 10 "c").2 (Line.other "x") rfl).trans (by rfl)⟩

/-- Claim C5: at an NBFR line the subdomain rewrite emits a zero count
with the original trailing comment, discards every following input line
up to the first line containing the ANGINN marker, emits that marker line
itself unchanged, and resumes right after it. -/
theorem claim_C5 : ∀ (node_num : Option ℕ) (fuel : ℕ) (v : ℤ) (c : String)
    (mid : List Line) (raw : String) (post : List Line) (st : SubState),
    (∀ l ∈ mid, isAnginn l = false) →
    subdomainLoop node_num (fuel + 1)
        (Line.nbfr v c :: (mid ++ Line.anginn raw :: post)) st
      = emit [Line.nbfr 0 c, Line.anginn raw]
          (subdomainLoop node_num fuel post st) := by
  intro nn fuel v c mid raw post st h
  have hs := skipToAnginn_append mid raw post h
  simp only [subdomainLoop]
  rw [hs]

/-- Witness for claim C5: one frequency line between NBFR and ANGINN is
dropped, the ANGINN line survives. -/
theorem claim_C5_witness :
    subdomainLoop none 1
        [Line.nbfr 3 "c", Line.other "f1", Line.anginn "A"] initSub
      = .ok ([Line.nbfr 0 "c", Line.anginn "A"], initSub) :=
  (claim_C5 none 0 3 "c" [Line.other "f1"] "A" [] initSub
    (by decide)).trans (by rfl)

/-- Claim C6: set_ihot rewrites exactly the value field of an IHOT line
keeping its comment and leaves every other line unchanged, set_write_hot
does the same for the two value fields of an NHSTAR line, and in both
write traces the fort.15 document is always either the old or the fully
rewritten content, ending with the rewritten content and no temp
file. -/
theorem claim_C6 : ∀ (ihotv n1 n2 : ℤ) (doc : List Line),
    (∀ (v : ℤ) (c : String),
      set_ihot_line ihotv (Line.ihot v c) = Line.ihot ihotv c) ∧
    (∀ l : Line, isIhot l = false → set_ihot_line ihotv l = l) ∧
    (∀ s ∈ set_ihot_trace ihotv doc,
      s.fort15 = doc ∨ s.fort15 = set_ihot ihotv doc) ∧
    (set_ihot_trace ihotv doc).getLast? = some ⟨set_ihot ihotv doc, none⟩ ∧
    (∀ (v1 v2 : ℤ) (c : String),
      set_write_hot_line n1 n2 (Line.nhstar v1 v2 c) = Line.nhstar n1 n2 c) ∧
    (∀ l : Line, isNhstar l = false → set_write_hot_line n1 n2 l = l) ∧
    (∀ s ∈ set_write_hot_trace n1 n2 doc,
      s.fort15 = doc ∨ s.fort15 = set_write_hot n1 n2 doc) ∧
    (set_write_hot_trace n1 n2 doc).getLast?
      = some ⟨set_write_hot n1 n2 doc, none⟩ := by
  intro ihotv n1 n2 doc
  refine ⟨fun v c => rfl, ?_, writeTrace_fort15 _ _, writeTrace_last _ _,
    fun v1 v2 c => rfl, ?_, writeTrace_fort15 _ _, writeTrace_last _ _⟩
  · intro l hl
    cases l <;> simp [isIhot] at hl <;> rfl
  · intro l hl
    cases l <;> simp [isNhstar] at hl <;> rfl

/-- Witness for claim C6 at concrete documents, discharging the
non-target-line and trace-membership hypotheses. -/
theorem claim_C6_witness :
    set_ihot_line 7 (Line.other "x") = Line.other "x" ∧
    ((⟨[Line.ihot 2 "c"], some []⟩ : FS).fort15 = [Line.ihot 2 "c"] ∨
      (⟨[Line.ihot 2 "c"], some []⟩ : FS).fort15
        = set_ihot 7 [Line.ihot 2 "c"]) ∧
    set_write_hot_line 4 5 (Line.other "y") = Line.other "y" ∧
    ((⟨[Line.nhstar 0 0 "d"], some []⟩ : FS).fort15 = [Line.nhstar 0 0 "d"] ∨
      (⟨[Line.nhstar 0 0 "d"], some []⟩ : FS).fort15
        = set_write_hot 4 5 [Line.nhstar 0 0 "d"]) := by
  have h := claim_C6 7 4 5 [Line.ihot 2 "c"]
  have h2 := claim_C6 7 4 5 [Line.nhstar 0 0 "d"]
  exact ⟨h.2.1 (Line.other "x") rfl,
    h.2.2.1 ⟨[Line.ihot 2 "c"], some []⟩ (by decide),
    h2.2.2.2.2.2.1 (Line.other "y") rfl,
    h2.2.2.2.2.2.2.1 ⟨[Line.nhstar 0 0 "d"], some []⟩ (by decide)⟩

end Fort15
